/-
Formal verification of the delivery-intel analysis pipeline.

This file gives a shallow embedding, in Lean 4, of the core analysis logic of
the delivery-intel repository (TypeScript), and proves or refutes the frozen
claims about it.  The embedding conventions are:

* JavaScript numbers are modelled as exact rationals (`ℚ`); timestamps
  (`Date.getTime()` values) as integers (`ℤ`, milliseconds).
* `Math.round` is Mathlib's `round` (both round half toward +∞);
  `x.toFixed(d)` followed by unary `+` is modelled as exact decimal rounding
  `round (10^d * x) / 10^d` (float formatting artifacts are idealized away).
* `Array.prototype.sort(cmp)` (a stable comparison sort in modern engines) is
  modelled by the stable insertion sort `sortJS` below.
* `date-fns` helpers: `differenceInHours` truncates toward zero
  (`Int.tdiv` of the millisecond difference); `Math.floor` of a real
  division of integers is `Int.fdiv`.
* Nullable fields (`string | null`, `number | null`) are `Option` values;
  fallible external fetchers are replaced by explicit list arguments, so each
  pipeline stage becomes a pure function of the data it fetched.

Sources embedded here (quoted by their TypeScript names):
* the DORA metrics engine `src/lib/metrics.ts` (namespace `Metrics`);
* the standalone CLI analyzer `src/cli/analyzer.ts` (namespace `Analyzer`);
* the suggestion/scoring engine `src/lib/suggestions.ts` (namespace `Suggestions`);
* the shared OSV helpers `src/shared/osv.ts` (namespace `Osv`) and the inline
  scanner logic of `src/lib/vulnerabilities.ts` (namespace `VulnScan`);
* the burnout risk engine `src/cli/riskEngine.ts` (namespace `Risk`).
-/
import Mathlib

namespace DeliveryIntel

/-! ## JS-level helpers -/

/-- Model of `+x.toFixed(1)`: round to one decimal place, half toward +∞. -/
def toFixed1 (q : ℚ) : ℚ := (round (10 * q) : ℚ) / 10

/-- Model of `+x.toFixed(2)`: round to two decimal places. -/
def toFixed2 (q : ℚ) : ℚ := (round (100 * q) : ℚ) / 100

/-- Model of `+x.toFixed(4)`: round to four decimal places. -/
def toFixed4 (q : ℚ) : ℚ := (round (10000 * q) : ℚ) / 10000

/-- `date-fns` `differenceInHours(later, earlier)`: whole hours between two
millisecond timestamps, truncated toward zero. -/
def diffHours (later earlier : ℤ) : ℤ := Int.tdiv (later - earlier) 3600000

/-- Insert `x` into an already sorted list, after every element `y` with
`lt x y = false`.  This is the stable insertion step of `sortJS`. -/
def insertStable (lt : α → α → Bool) (x : α) : List α → List α
  | [] => [x]
  | y :: ys => if lt x y then x :: y :: ys else y :: insertStable lt x ys

/-- Model of JavaScript `Array.prototype.sort` with a comparator inducing the
strict order `lt` (the ECMAScript sort is stable; so is this insertion sort). -/
def sortJS (lt : α → α → Bool) (l : List α) : List α :=
  l.foldl (fun acc x => insertStable lt x acc) []

theorem length_insertStable (lt : α → α → Bool) (x : α) (l : List α) :
    (insertStable lt x l).length = l.length + 1 := by
  induction l with
  | nil => rfl
  | cons y ys ih => simp only [insertStable]; split <;> simp [ih]

theorem insertStable_perm (lt : α → α → Bool) (x : α) (l : List α) :
    (insertStable lt x l).Perm (x :: l) := by
  induction l with
  | nil => exact List.Perm.refl _
  | cons y ys ih =>
    simp only [insertStable]; split
    · exact List.Perm.refl _
    · exact (ih.cons y).trans (List.Perm.swap x y ys)

theorem sortJS_perm (lt : α → α → Bool) (l : List α) : (sortJS lt l).Perm l := by
  suffices h : ∀ acc : List α,
      (l.foldl (fun acc x => insertStable lt x acc) acc).Perm (acc ++ l) by
    simpa using h []
  induction l with
  | nil => simp
  | cons y ys ih =>
    intro acc
    simp only [List.foldl_cons]
    refine (ih _).trans ?_
    refine ((insertStable_perm lt y acc).append_right ys).trans ?_
    exact List.perm_middle.symm

theorem mem_sortJS (lt : α → α → Bool) (a : α) (l : List α) :
    a ∈ sortJS lt l ↔ a ∈ l :=
  (sortJS_perm lt l).mem_iff

theorem length_sortJS (lt : α → α → Bool) (l : List α) :
    (sortJS lt l).length = l.length :=
  (sortJS_perm lt l).length_eq

/-- The `median` helper of `src/lib/metrics.ts` and `src/cli/analyzer.ts`
(both files contain the same function):
empty input returns 0; otherwise sort ascending, take the middle element for
odd length, the average of the two middle elements for even length. -/
def median (values : List ℚ) : ℚ :=
  if values.length = 0 then 0
  else
    let sorted := sortJS (fun a b => decide (a < b)) values
    let mid := sorted.length / 2
    if sorted.length % 2 ≠ 0 then sorted.getD mid 0
    else (sorted.getD (mid - 1) 0 + sorted.getD mid 0) / 2

/-! ## Ratings -/

/-- The metric rating enumeration (the string union
`"Elite" | "High" | "Medium" | "Low" | "N/A"` of the TypeScript sources). -/
inductive Rating where
  | Elite
  | High
  | Medium
  | Low
  | NA
deriving DecidableEq, Repr

/-- Provenance tag of the deployment-frequency number
(`"deployments_api" | "merged_prs_fallback"`). -/
inductive DeploySource where
  | deployments_api
  | merged_prs_fallback
deriving DecidableEq, Repr

/-! ## Data shapes (from `src/types/index.ts`, fields the pipeline reads) -/

/-- A CI workflow run (`GitHubWorkflowRun`): `status` and `conclusion` are
nullable strings, `created_at` a timestamp, `head_branch` nullable. -/
structure GitHubWorkflowRun where
  status : Option String
  conclusion : Option String
  created_at : ℤ
  head_branch : Option String
deriving DecidableEq, Repr

/-- A pull request (`GitHubPullRequest`): creation and (nullable) merge time. -/
structure GitHubPullRequest where
  created_at : ℤ
  merged_at : Option ℤ
deriving DecidableEq, Repr

/-- A formal deployment record (`GitHubDeployment`): creation time. -/
structure GitHubDeployment where
  created_at : ℤ
deriving DecidableEq, Repr

/-- `DORAMetrics.deploymentFrequency`. -/
structure DeploymentFrequency where
  deploymentsPerWeek : ℚ
  rating : Rating
  source : DeploySource
deriving DecidableEq, Repr

/-- `DORAMetrics.leadTimeForChanges`. -/
structure LeadTimeForChanges where
  medianHours : ℚ
  rating : Rating
deriving DecidableEq, Repr

/-- `DORAMetrics.changeFailureRate`. -/
structure ChangeFailureRate where
  percentage : ℚ
  failedRuns : ℕ
  totalRuns : ℕ
  rating : Rating
deriving DecidableEq, Repr

/-- `DORAMetrics.meanTimeToRestore`: `medianHours` is `number | null`. -/
structure MeanTimeToRestore where
  medianHours : Option ℚ
  rating : Rating
deriving DecidableEq, Repr

/-- The `DORAMetrics` aggregate.  (The CLI analyzer's copy of this interface
omits `meanTimeToRestore`; its functions below read only the other fields.) -/
structure DORAMetrics where
  deploymentFrequency : DeploymentFrequency
  leadTimeForChanges : LeadTimeForChanges
  changeFailureRate : ChangeFailureRate
  meanTimeToRestore : MeanTimeToRestore
deriving DecidableEq, Repr

/-- A classified vulnerability (`DependencyVulnerability`); `severity` is a
plain string in the TypeScript type. -/
structure DependencyVulnerability where
  packageName : String
  currentVersion : String
  vulnId : String
  summary : String
  severity : String
  aliases : List String
  fixedVersion : Option String
deriving DecidableEq, Repr

namespace Metrics

/-! ## The DORA metrics engine, `src/lib/metrics.ts` -/

/-- `rateDeploymentFrequency` (metrics.ts): per-week thresholds 7 / 1 / 0.25. -/
def rateDeploymentFrequency (perWeek : ℚ) : Rating :=
  if perWeek ≥ 7 then .Elite
  else if perWeek ≥ 1 then .High
  else if perWeek ≥ (1 : ℚ) / 4 then .Medium
  else .Low

/-- `rateLeadTime` (metrics.ts): hour thresholds 24 / 168 / 720. -/
def rateLeadTime (medianHours : ℚ) : Rating :=
  if medianHours < 24 then .Elite
  else if medianHours < 168 then .High
  else if medianHours < 720 then .Medium
  else .Low

/-- `rateChangeFailureRate` (metrics.ts): percentage thresholds 5 / 10 / 15. -/
def rateChangeFailureRate (pct : ℚ) : Rating :=
  if pct ≤ 5 then .Elite
  else if pct ≤ 10 then .High
  else if pct ≤ 15 then .Medium
  else .Low

/-- `rateMTTR` (metrics.ts): `null` hours rate `N/A`; thresholds 1 / 24 / 168. -/
def rateMTTR (hours : Option ℚ) : Rating :=
  match hours with
  | none => .NA
  | some h =>
    if h < 1 then .Elite
    else if h < 24 then .High
    else if h < 168 then .Medium
    else .Low

/-- `date-fns` `differenceInCalendarWeeks(later, earlier)`: difference of the
calendar-week indices of the two timestamps.  `off` is the environment's
week-start offset (locale week start and timezone), threaded as a parameter. -/
def diffCalendarWeeks (off later earlier : ℤ) : ℤ :=
  Int.fdiv (later - off) 604800000 - Int.fdiv (earlier - off) 604800000

/-- `computeDeploymentFrequency` (metrics.ts), as a pure function of the
fetched deployment and merged-PR lists.  With ≥ 2 formal deployments the
Deployments API path runs; otherwise the merged-PR fallback (which reports
0 / `Low` when fewer than 2 merged PRs exist). -/
def computeDeploymentFrequency (off : ℤ) (deployments : List GitHubDeployment)
    (mergedPRs : List GitHubPullRequest) : DeploymentFrequency :=
  if deployments.length ≥ 2 then
    let dates := deployments.map (·.created_at)
    let w := diffCalendarWeeks off (dates.getD 0 0) (dates.getD (dates.length - 1) 0)
    let weeks := if w = 0 then 1 else w
    let perWeek := toFixed2 ((deployments.length : ℚ) / (weeks : ℚ))
    { deploymentsPerWeek := perWeek
      rating := rateDeploymentFrequency perWeek
      source := .deployments_api }
  else if mergedPRs.length < 2 then
    { deploymentsPerWeek := 0, rating := .Low, source := .merged_prs_fallback }
  else
    let prDates := sortJS (fun a b => decide (b < a)) (mergedPRs.map (·.merged_at.getD 0))
    let w := diffCalendarWeeks off (prDates.getD 0 0) (prDates.getD (prDates.length - 1) 0)
    let weeks := if w = 0 then 1 else w
    let perWeek := toFixed2 ((mergedPRs.length : ℚ) / (weeks : ℚ))
    { deploymentsPerWeek := perWeek
      rating := rateDeploymentFrequency perWeek
      source := .merged_prs_fallback }

/-- `computeLeadTime` (metrics.ts): hours from PR creation to merge for every
merged PR, reported as the (rounded) median; note this version has no special
case for an empty list, so zero merged PRs give `median [] = 0` and thus the
rating `rateLeadTime 0 = Elite`. -/
def computeLeadTime (mergedPRs : List GitHubPullRequest) : LeadTimeForChanges :=
  let hours := (mergedPRs.filter (fun pr => pr.merged_at ≠ none)).map
    (fun pr => ((diffHours (pr.merged_at.getD 0) pr.created_at : ℤ) : ℚ))
  let med := median hours
  { medianHours := toFixed1 med, rating := rateLeadTime med }

/-- `computeChangeFailureRate` (metrics.ts): only runs with
`status === "completed"` count; percentage is failures over completed, to one
decimal; note both zero-run branches return the rating `Elite`. -/
def computeChangeFailureRate (runs : List GitHubWorkflowRun) : ChangeFailureRate :=
  if runs.length = 0 then
    { percentage := 0, failedRuns := 0, totalRuns := 0, rating := .Elite }
  else
    let completed := runs.filter (fun r => r.status = some "completed")
    if completed.length = 0 then
      { percentage := 0, failedRuns := 0, totalRuns := 0, rating := .Elite }
    else
      let failures := completed.filter (fun r => r.conclusion = some "failure")
      let pct := toFixed1 ((failures.length : ℚ) / (completed.length : ℚ) * 100)
      { percentage := pct
        failedRuns := failures.length
        totalRuns := completed.length
        rating := rateChangeFailureRate pct }

/-- The scan inside `computeMTTR` (metrics.ts): walk the chronologically
sorted runs; for each completed failure, find the next completed success on
the same branch and record the hour gap; a failure with no later same-branch
success contributes nothing. -/
def restorationTimesAux : List GitHubWorkflowRun → List ℤ
  | [] => []
  | r :: rest =>
    if r.status = some "completed" ∧ r.conclusion = some "failure" then
      match rest.find? (fun s =>
          s.status = some "completed" ∧ s.conclusion = some "success" ∧
          s.head_branch = r.head_branch) with
      | some s => diffHours s.created_at r.created_at :: restorationTimesAux rest
      | none => restorationTimesAux rest
    else restorationTimesAux rest

/-- Chronological sort plus the restoration-gap scan of `computeMTTR`. -/
def restorationTimes (runs : List GitHubWorkflowRun) : List ℤ :=
  restorationTimesAux (sortJS (fun a b => decide (a.created_at < b.created_at)) runs)

/-- `computeMTTR` (metrics.ts): the median of the restoration gaps; zero
samples give `medianHours := null` and the rating `N/A`. -/
def computeMTTR (runs : List GitHubWorkflowRun) : MeanTimeToRestore :=
  let ts := (restorationTimes runs).map (fun h => (h : ℚ))
  if ts.length = 0 then { medianHours := none, rating := .NA }
  else
    let med := median ts
    { medianHours := some (toFixed1 med), rating := rateMTTR (some med) }

/-- `computeDORAMetrics` (metrics.ts), as a pure function of the fetched
lists.  Note that the source assembles `meanTimeToRestore` as the constant
`{ medianHours: null, rating: "N/A" }` (its comment: "MTTR is kept in the
type for completeness but not actively computed") — `computeMTTR` is never
called. -/
def computeDORAMetrics (off : ℤ) (deployments : List GitHubDeployment)
    (mergedPRs : List GitHubPullRequest) (runs : List GitHubWorkflowRun) :
    DORAMetrics :=
  { deploymentFrequency := computeDeploymentFrequency off deployments mergedPRs
    leadTimeForChanges := computeLeadTime mergedPRs
    changeFailureRate := computeChangeFailureRate runs
    meanTimeToRestore := { medianHours := none, rating := .NA } }

end Metrics

namespace Analyzer

/-! ## The standalone CLI analyzer, `src/cli/analyzer.ts` -/

/-- `computeLeadTime` (analyzer.ts).  Unlike the metrics.ts copy, this version
checks for an empty hours list and reports `medianHours 0` with rating `N/A`. -/
def computeLeadTime (mergedPRs : List GitHubPullRequest) : LeadTimeForChanges :=
  let hours := (mergedPRs.filter (fun pr => pr.merged_at ≠ none)).map
    (fun pr => ((diffHours (pr.merged_at.getD 0) pr.created_at : ℤ) : ℚ))
  if hours.length = 0 then { medianHours := 0, rating := .NA }
  else
    let med := median hours
    { medianHours := toFixed1 med, rating := Metrics.rateLeadTime med }

/-- `computeCFR` (analyzer.ts).  Unlike the metrics.ts copy, both zero-run
branches return the rating `N/A`. -/
def computeCFR (runs : List GitHubWorkflowRun) : ChangeFailureRate :=
  if runs.length = 0 then
    { percentage := 0, failedRuns := 0, totalRuns := 0, rating := .NA }
  else
    let completed := runs.filter (fun r => r.status = some "completed")
    if completed.length = 0 then
      { percentage := 0, failedRuns := 0, totalRuns := 0, rating := .NA }
    else
      let failures := completed.filter (fun r => r.conclusion = some "failure")
      let pct := toFixed1 ((failures.length : ℚ) / (completed.length : ℚ) * 100)
      { percentage := pct
        failedRuns := failures.length
        totalRuns := completed.length
        rating := Metrics.rateChangeFailureRate pct }

/-- `bucketLast7Days` (analyzer.ts): bucket event timestamps into per-day
counts for the last 7 days relative to `now` (index 0 = 6 days ago,
index 6 = today); events outside the window are ignored. -/
def bucketLast7Days (now : ℤ) (dates : List ℤ) : List ℕ :=
  dates.foldl
    (fun buckets d =>
      let diffDays := Int.fdiv (now - d) 86400000
      if 0 ≤ diffDays ∧ diffDays < 7 then
        let i := (6 - diffDays).toNat
        buckets.set i (buckets.getD i 0 + 1)
      else buckets)
    (List.replicate 7 0)

end Analyzer

namespace Suggestions

/-! ## The suggestion and scoring engine, `src/lib/suggestions.ts` -/

/-- Suggestion category (`"performance" | "reliability" | "security"`). -/
inductive Category where
  | performance
  | reliability
  | security
deriving DecidableEq, Repr

/-- Suggestion severity (`"high" | "medium" | "low"`). -/
inductive Severity where
  | high
  | medium
  | low
deriving DecidableEq, Repr

/-- A generated suggestion.  The `description` and `actionItems` fields of the
source are presentational strings (interpolating the numbers already present
in the inputs); they are omitted from the embedding, which keeps the category,
severity and title that identify each rule's output. -/
structure Suggestion where
  category : Category
  severity : Severity
  title : String
deriving DecidableEq, Repr

/-- The `severityOrder` map `{ high: 0, medium: 1, low: 2 }`. -/
def severityOrder : Severity → ℕ
  | .high => 0
  | .medium => 1
  | .low => 2

/-- `generateSuggestions` (suggestions.ts): the fixed rule set, evaluated in
source order (change-failure rate, lead time, deployment frequency, fallback
tracking, critical vulnerabilities, high vulnerabilities, zero
vulnerabilities), then stably sorted by severity rank. -/
def generateSuggestions (dora : DORAMetrics)
    (vulnerabilities : List DependencyVulnerability) : List Suggestion :=
  let cfrRule : List Suggestion :=
    if dora.changeFailureRate.percentage > 15 then
      [{ category := .reliability, severity := .high,
         title := "High Pipeline Failure Rate" }]
    else if dora.changeFailureRate.percentage > 10 then
      [{ category := .reliability, severity := .medium,
         title := "Moderate Pipeline Failure Rate" }]
    else []
  let leadRule : List Suggestion :=
    if dora.leadTimeForChanges.medianHours > 168 then
      [{ category := .performance, severity := .high,
         title := "Slow Lead Time for Changes" }]
    else if dora.leadTimeForChanges.medianHours > 48 then
      [{ category := .performance, severity := .medium,
         title := "PRs Are Sitting Too Long" }]
    else []
  let freqRule : List Suggestion :=
    if dora.deploymentFrequency.rating = .Low then
      [{ category := .performance, severity := .medium,
         title := "Low Deployment Frequency" }]
    else []
  let trackingRule : List Suggestion :=
    if dora.deploymentFrequency.source = .merged_prs_fallback then
      [{ category := .performance, severity := .low,
         title := "No Formal Deployment Tracking" }]
    else []
  let critical := vulnerabilities.filter (fun v => v.severity = "critical")
  let high := vulnerabilities.filter (fun v => v.severity = "high")
  let criticalRule : List Suggestion :=
    if critical.length > 0 then
      [{ category := .security, severity := .high,
         title := toString critical.length ++ " Critical Vulnerabilit" ++
           (if critical.length = 1 then "y" else "ies") ++ " Found" }]
    else []
  let highRule : List Suggestion :=
    if high.length > 0 then
      [{ category := .security, severity := .medium,
         title := toString high.length ++ " High-Severity Vulnerabilit" ++
           (if high.length = 1 then "y" else "ies") ++ " Found" }]
    else []
  let noVulnRule : List Suggestion :=
    if vulnerabilities.length = 0 then
      [{ category := .security, severity := .low,
         title := "No Known Vulnerabilities" }]
    else []
  sortJS (fun a b => decide (severityOrder a.severity < severityOrder b.severity))
    (cfrRule ++ leadRule ++ freqRule ++ trackingRule ++
      criticalRule ++ highRule ++ noVulnRule)

/-- The `RATING_SCORES` table of suggestions.ts:
Elite 100, High 75, Medium 50, Low 25, `"N/A"` 50 (neutral). -/
def ratingScores : Rating → ℚ
  | .Elite => 100
  | .High => 75
  | .Medium => 50
  | .Low => 25
  | .NA => 50

/-- The vulnerability penalty fold of `computeOverallScore`:
5 per critical, 2 per high, 1 per medium, 0 otherwise, accumulated with
`reduce` from 0. -/
def vulnPenalty (vulnerabilities : List DependencyVulnerability) : ℚ :=
  vulnerabilities.foldl
    (fun sum v =>
      if v.severity = "critical" then sum + 5
      else if v.severity = "high" then sum + 2
      else if v.severity = "medium" then sum + 1
      else sum)
    0

/-- `computeOverallScore` (suggestions.ts): average the three composite rating
scores (deployment frequency, lead time, change-failure rate; MTTR excluded),
subtract the vulnerability penalty, round, and clamp into [0, 100]. -/
def computeOverallScore (dora : DORAMetrics)
    (vulnerabilities : List DependencyVulnerability) : ℤ :=
  let doraScore :=
    (ratingScores dora.deploymentFrequency.rating +
      ratingScores dora.leadTimeForChanges.rating +
      ratingScores dora.changeFailureRate.rating) / 3
  max 0 (min 100 (round (doraScore - vulnPenalty vulnerabilities)))

end Suggestions

namespace Osv

/-! ## Shared OSV helpers, `src/shared/osv.ts` -/

/-- An OSV range event (`{ introduced?: string; fixed?: string }`). -/
structure OsvEvent where
  introduced : Option String
  fixed : Option String
deriving DecidableEq, Repr

/-- An OSV affected range (`{ type: string; events: [...] }`). -/
structure OsvRange where
  type : String
  events : List OsvEvent
deriving DecidableEq, Repr

/-- An OSV affected entry: the package it names and its optional ranges. -/
structure OsvAffected where
  packageName : String
  packageEcosystem : String
  ranges : Option (List OsvRange)
deriving DecidableEq, Repr

/-- JavaScript truthiness of `event.fixed` (`undefined` and the empty string
are falsy). -/
def truthyFixed (e : OsvEvent) : Option String :=
  match e.fixed with
  | some f => if f = "" then none else some f
  | none => none

/-- First truthy `fixed` value of a single range's event list. -/
def firstFixedInEvents : List OsvEvent → Option String
  | [] => none
  | e :: rest =>
    match truthyFixed e with
    | some f => some f
    | none => firstFixedInEvents rest

/-- First truthy `fixed` value across a list of ranges, in declaration order
(the doubly nested loop of `extractFixedVersion`, which returns from inside
the inner loop). -/
def firstFixedInRanges : List OsvRange → Option String
  | [] => none
  | r :: rest =>
    match firstFixedInEvents r.events with
    | some f => some f
    | none => firstFixedInRanges rest

/-- `extractFixedVersion` (osv.ts): find the first affected entry whose
package name and ecosystem match the dependency; within its ranges, return
the first `fixed` event value in declaration order; `null` when no entry
matches, the entry has no ranges, or no fixed event exists. -/
def extractFixedVersion (affected : Option (List OsvAffected))
    (depName depEcosystem : String) : Option String :=
  match affected with
  | none => none
  | some entries =>
    match entries.find? (fun a =>
        a.packageName = depName ∧ a.packageEcosystem = depEcosystem) with
    | none => none
    | some entry =>
      match entry.ranges with
      | none => none
      | some ranges => firstFixedInRanges ranges

end Osv

namespace VulnScan

/-! ## The inline fixed-version loop of `src/lib/vulnerabilities.ts` -/

/-- The inline extraction inside `scanVulnerabilities` (vulnerabilities.ts):
`let fixedVersion = null; for (range of ranges) { for (event of range.events)
{ if (event.fixed) { fixedVersion = event.fixed; break; } } }`.
The `break` leaves only the inner loop, so each later range that contains a
fixed event overwrites the value taken from an earlier range. -/
def fixedVersionLoop (ranges : List Osv.OsvRange) : Option String :=
  ranges.foldl
    (fun acc r =>
      match Osv.firstFixedInEvents r.events with
      | some f => some f
      | none => acc)
    none

/-- The fixed-version value `scanVulnerabilities` stores for a dependency:
same matching of the affected entry as `extractFixedVersion`, but the inner
loop above. -/
def scanFixedVersion (affected : Option (List Osv.OsvAffected))
    (depName depEcosystem : String) : Option String :=
  match affected with
  | none => none
  | some entries =>
    match entries.find? (fun a =>
        a.packageName = depName ∧ a.packageEcosystem = depEcosystem) with
    | none => none
    | some entry =>
      match entry.ranges with
      | none => none
      | some ranges => fixedVersionLoop ranges

end VulnScan

namespace Risk

/-! ## The burnout risk engine, `src/cli/riskEngine.ts` -/

/-- Qualitative risk level (`"low" | "moderate" | "high" | "critical"`). -/
inductive RiskLevel where
  | low
  | moderate
  | high
  | critical
deriving DecidableEq, Repr

/-- The `RiskBreakdown` output record. -/
structure RiskBreakdown where
  cycleTimeDelta : ℚ
  failureRateDelta : ℚ
  sentimentMultiplier : ℚ
  score : ℤ
  level : RiskLevel
  summary : String
deriving DecidableEq, Repr

/-- `normalizeDelta` (riskEngine.ts): 0 at or below the elite benchmark,
otherwise the linear interpolation toward the cap, clamped into [0, 1]. -/
def normalizeDelta (actual eliteBenchmark maxCap : ℚ) : ℚ :=
  if actual ≤ eliteBenchmark then 0
  else min (max ((actual - eliteBenchmark) / (maxCap - eliteBenchmark)) 0) 1

/-- `classifyRiskLevel` (riskEngine.ts): ≥75 critical, ≥50 high, ≥25
moderate, else low. -/
def classifyRiskLevel (score : ℤ) : RiskLevel :=
  if score ≥ 75 then .critical
  else if score ≥ 50 then .high
  else if score ≥ 25 then .moderate
  else .low

/-- `summarize` (riskEngine.ts): template selection keyed on level, the
dominating deltas, and whether sentiment amplified the signal. -/
def summarize (level : RiskLevel) (score : ℤ)
    (cycleTimeDelta failureRateDelta sentimentMultiplier : ℚ) : String :=
  let parts : List String :=
    (match level with
     | .low =>
       ["Delivery risk is low (" ++ toString score ++ "/100).",
        "Team velocity and pipeline stability are within healthy thresholds."]
     | .moderate =>
       ["Delivery risk is moderate (" ++ toString score ++ "/100)."] ++
       (if cycleTimeDelta > (3 : ℚ) / 10 then
          ["Cycle times are above the elite benchmark."] else []) ++
       (if failureRateDelta > (3 : ℚ) / 10 then
          ["Failure rate is trending upward."] else [])
     | .high =>
       ["Delivery risk is high (" ++ toString score ++ "/100)."] ++
       (if cycleTimeDelta > (1 : ℚ) / 2 then
          ["PRs are taking significantly longer to merge."] else []) ++
       (if failureRateDelta > (1 : ℚ) / 2 then
          ["Pipeline failures are impacting velocity."] else [])
     | .critical =>
       ["Delivery risk is critical (" ++ toString score ++ "/100).",
        "Immediate intervention recommended — team may be approaching burnout."]) ++
    (if sentimentMultiplier > 1 then
       ["Negative team sentiment is amplifying the risk signal."] else [])
  String.intercalate " " parts

/-- `computeRiskScore` (riskEngine.ts), with `sentiment` the optional
`sentimentNegativeRatio` input.  Note the sentiment branch: when the ratio is
present and positive the multiplier is `1.0 + ratio * 0.5` with no clamping
of the ratio. -/
def computeRiskScore (doraMetrics : DORAMetrics) (sentiment : Option ℚ) :
    RiskBreakdown :=
  let cycleTimeDelta :=
    normalizeDelta doraMetrics.leadTimeForChanges.medianHours 24 720
  let failureRateDelta :=
    normalizeDelta doraMetrics.changeFailureRate.percentage 5 100
  let sentimentMultiplier : ℚ :=
    match sentiment with
    | some r => if r > 0 then 1 + r * ((1 : ℚ) / 2) else 1
    | none => 1
  let rawScore :=
    (cycleTimeDelta * ((6 : ℚ) / 10) + failureRateDelta * ((4 : ℚ) / 10)) *
      sentimentMultiplier
  let score := min 100 (max 0 (round (rawScore * 100)))
  let level := classifyRiskLevel score
  { cycleTimeDelta := toFixed4 cycleTimeDelta
    failureRateDelta := toFixed4 failureRateDelta
    sentimentMultiplier := toFixed2 sentimentMultiplier
    score := score
    level := level
    summary := summarize level score cycleTimeDelta failureRateDelta
      sentimentMultiplier }

end Risk

/-! ## Claim C8: the median helper -/

/-- C8: `median []` is 0; `median [x]` is `x`; for even-length input the
median is the average of the two central elements of the sorted list, and for
odd-length input it is the central element of the sorted list. -/
theorem median_contract :
    median [] = 0 ∧
    (∀ x : ℚ, median [x] = x) ∧
    (∀ l : List ℚ, l ≠ [] → l.length % 2 = 0 →
      median l =
        ((sortJS (fun a b => decide (a < b)) l).getD (l.length / 2 - 1) 0 +
         (sortJS (fun a b => decide (a < b)) l).getD (l.length / 2) 0) / 2) ∧
    (∀ l : List ℚ, l.length % 2 = 1 →
      median l = (sortJS (fun a b => decide (a < b)) l).getD (l.length / 2) 0) := by
  refine ⟨by simp [median], ?_, ?_, ?_⟩
  · intro x
    simp [median, sortJS, insertStable]
  · intro l hne h0
    have hlen : l.length ≠ 0 := by
      simpa [List.length_eq_zero] using hne
    simp only [median, length_sortJS, if_neg hlen, h0]
    simp
  · intro l h1
    have hlen : l.length ≠ 0 := by omega
    have h0 : ¬ l.length % 2 = 0 := by omega
    simp only [median, length_sortJS, if_neg hlen]
    simp [h0]

/-- Witness for C8: the even-length case applied at the list `[3, 1]`. -/
theorem median_contract_witness :
    median [(3 : ℚ), 1] =
      ((sortJS (fun a b => decide (a < b)) [(3 : ℚ), 1]).getD 0 0 +
       (sortJS (fun a b => decide (a < b)) [(3 : ℚ), 1]).getD 1 0) / 2 :=
  median_contract.2.2.1 [3, 1] (by decide) (by decide)

/-! ## Claim C10: normalizeDelta is monotone and bounded -/

/-- C10: for eliteBenchmark < maxCap, `normalizeDelta` always lands in
[0, 1] and is monotone non-decreasing in the actual value. -/
theorem normalizeDelta_monotone_bounded :
    ∀ eliteBenchmark maxCap a₁ a₂ : ℚ, eliteBenchmark < maxCap →
      (0 ≤ Risk.normalizeDelta a₁ eliteBenchmark maxCap ∧
        Risk.normalizeDelta a₁ eliteBenchmark maxCap ≤ 1) ∧
      (a₁ ≤ a₂ →
        Risk.normalizeDelta a₁ eliteBenchmark maxCap ≤
          Risk.normalizeDelta a₂ eliteBenchmark maxCap) := by
  have bounds : ∀ e c a : ℚ,
      0 ≤ Risk.normalizeDelta a e c ∧ Risk.normalizeDelta a e c ≤ 1 := by
    intro e c a
    unfold Risk.normalizeDelta
    split
    · exact ⟨le_refl 0, zero_le_one⟩
    · exact ⟨le_min (le_max_right _ _) zero_le_one, min_le_right _ _⟩
  intro e c a₁ a₂ hec
  refine ⟨bounds e c a₁, ?_⟩
  intro h12
  unfold Risk.normalizeDelta
  by_cases h1 : a₁ ≤ e
  · rw [if_pos h1]
    split
    · exact le_refl 0
    · exact le_min (le_max_right _ _) zero_le_one
  · have h2 : ¬ a₂ ≤ e := fun hh => h1 (h12.trans hh)
    rw [if_neg h1, if_neg h2]
    refine min_le_min (max_le_max ?_ (le_refl 0)) (le_refl 1)
    have hc : (0 : ℚ) < c - e := by linarith
    apply div_le_div_of_nonneg_right ?_ hc.le
    linarith

/-- Witness for C10: lead-time benchmarks 24/720 at actual values 100 and
200. -/
theorem normalizeDelta_monotone_bounded_witness :
    (0 ≤ Risk.normalizeDelta 100 24 720 ∧ Risk.normalizeDelta 100 24 720 ≤ 1) ∧
      Risk.normalizeDelta 100 24 720 ≤ Risk.normalizeDelta 200 24 720 :=
  ⟨(normalizeDelta_monotone_bounded 24 720 100 200 (by decide)).1,
    (normalizeDelta_monotone_bounded 24 720 100 200 (by decide)).2 (by decide)⟩

/-! ## Claim C9: bucketLast7Days invariants -/

/-- Incrementing one position changes the sum by at most one. -/
theorem sum_set_bump_le (l : List ℕ) (i : ℕ) :
    (l.set i (l.getD i 0 + 1)).sum ≤ l.sum + 1 := by
  induction l generalizing i with
  | nil => simp
  | cons x xs ih =>
    cases i with
    | zero => simp [List.getD]; omega
    | succ j =>
      have h : (x :: xs).set (j + 1) ((x :: xs).getD (j + 1) 0 + 1) =
          x :: xs.set j (xs.getD j 0 + 1) := by
        simp [List.getD_cons_succ, List.set]
      rw [h]
      simp only [List.sum_cons]
      have := ih j
      omega

/-- The body of the fold inside `bucketLast7Days`, named for the proofs
below (`bucketLast7Days now dates` is definitionally
`dates.foldl (bucketStep now) (List.replicate 7 0)`). -/
def bucketStep (now : ℤ) (buckets : List ℕ) (d : ℤ) : List ℕ :=
  let diffDays := Int.fdiv (now - d) 86400000
  if 0 ≤ diffDays ∧ diffDays < 7 then
    let i := (6 - diffDays).toNat
    buckets.set i (buckets.getD i 0 + 1)
  else buckets

theorem bucketLast7Days_eq_foldl (now : ℤ) (dates : List ℤ) :
    Analyzer.bucketLast7Days now dates =
      dates.foldl (bucketStep now) (List.replicate 7 0) := rfl

/-- One fold step of `bucketLast7Days` keeps the bucket-list length. -/
theorem bucketStep_length (now : ℤ) (b : List ℕ) (d : ℤ) :
    (bucketStep now b d).length = b.length := by
  unfold bucketStep
  dsimp only
  split <;> simp

/-- One fold step of `bucketLast7Days` grows the sum by at most one. -/
theorem bucketStep_sum (now : ℤ) (b : List ℕ) (d : ℤ) :
    (bucketStep now b d).sum ≤ b.sum + 1 := by
  unfold bucketStep
  dsimp only
  split
  · exact sum_set_bump_le b _
  · omega

/-- The fold of `bucketLast7Days` keeps the length and bounds the sum. -/
theorem bucketFold_invariant (now : ℤ) (dates : List ℤ) :
    ∀ init : List ℕ,
      (dates.foldl (bucketStep now) init).length = init.length ∧
      (dates.foldl (bucketStep now) init).sum ≤ init.sum + dates.length := by
  induction dates with
  | nil => intro init; simp
  | cons d rest ih =>
    intro init
    simp only [List.foldl_cons, List.length_cons]
    refine ⟨?_, ?_⟩
    · rw [(ih _).1, bucketStep_length]
    · calc (rest.foldl (bucketStep now) (bucketStep now init d)).sum
          ≤ (bucketStep now init d).sum + rest.length := (ih _).2
        _ ≤ (init.sum + 1) + rest.length := by
            have := bucketStep_sum now init d
            omega
        _ = init.sum + (rest.length + 1) := by omega

/-- C9: `bucketLast7Days` always returns exactly 7 (natural-number, hence
non-negative) counts; the bucket sum never exceeds the number of input dates;
a date more than 6 whole days in the past, or in the future, increments no
bucket; a date at `now` lands in bucket 6 (today) and a date exactly 6 days
old lands in bucket 0. -/
theorem bucketLast7Days_invariants :
    ∀ (now : ℤ) (dates : List ℤ),
      (Analyzer.bucketLast7Days now dates).length = 7 ∧
      (Analyzer.bucketLast7Days now dates).sum ≤ dates.length ∧
      (∀ d pre post, (now - d < 0 ∨ 7 ≤ Int.fdiv (now - d) 86400000) →
        Analyzer.bucketLast7Days now (pre ++ d :: post) =
          Analyzer.bucketLast7Days now (pre ++ post)) ∧
      Analyzer.bucketLast7Days now [now] = [0, 0, 0, 0, 0, 0, 1] ∧
      Analyzer.bucketLast7Days now [now - 6 * 86400000] =
        [1, 0, 0, 0, 0, 0, 0] := by
  intro now dates
  refine ⟨?_, ?_, ?_, ?_, ?_⟩
  · rw [bucketLast7Days_eq_foldl, (bucketFold_invariant now dates _).1]
    simp
  · have h := (bucketFold_invariant now dates (List.replicate 7 0)).2
    rw [bucketLast7Days_eq_foldl]
    simpa using h
  · intro d pre post hout
    have hskip : ∀ b : List ℕ, bucketStep now b d = b := by
      intro b
      have hcond : ¬ (0 ≤ Int.fdiv (now - d) 86400000 ∧
          Int.fdiv (now - d) 86400000 < 7) := by
        rcases hout with h | h
        · intro ⟨h0, _⟩
          have hneg : Int.fdiv (now - d) 86400000 < 0 := by
            rw [Int.fdiv_eq_ediv _ (by omega)]
            exact Int.ediv_neg' h (by omega)
          omega
        · intro ⟨_, h7⟩
          omega
      unfold bucketStep
      simp only [if_neg hcond]
    rw [bucketLast7Days_eq_foldl, bucketLast7Days_eq_foldl,
      List.foldl_append, List.foldl_append, List.foldl_cons, hskip]
  · have h0 : Int.fdiv (now - now) 86400000 = 0 := by
      simp
    rw [bucketLast7Days_eq_foldl]
    simp [bucketStep, h0]
  · have h6 : Int.fdiv (now - (now - 6 * 86400000)) 86400000 = 6 := by
      have h : now - (now - 6 * 86400000) = 6 * 86400000 := by ring
      rw [h]
      decide
    rw [bucketLast7Days_eq_foldl]
    simp [bucketStep, h6]

/-- Witness for C9: the out-of-range case applied at a concrete date 8 days
in the past. -/
theorem bucketLast7Days_invariants_witness :
    Analyzer.bucketLast7Days 1000000000 ([] ++ (1000000000 - 8 * 86400000) :: []) =
      Analyzer.bucketLast7Days 1000000000 ([] ++ []) :=
  (bucketLast7Days_invariants 1000000000 []).2.2.1
    (1000000000 - 8 * 86400000) [] [] (Or.inr (by decide))

/-! ## Claim C1: the overall score formula -/

/-- The rating-to-score mapping of the claim's wording:
Elite 100, High 75, Medium 50, Low 25, N/A 50 (neutral). -/
def ratingToScoreSpec : Rating → ℚ
  | .Elite => 100
  | .High => 75
  | .Medium => 50
  | .Low => 25
  | .NA => 50

/-- The per-vulnerability penalty weight of the claim's wording:
5 per critical, 2 per high, 1 per medium, 0 per low or unknown. -/
def penaltyWeightSpec (v : DependencyVulnerability) : ℚ :=
  if v.severity = "critical" then 5
  else if v.severity = "high" then 2
  else if v.severity = "medium" then 1
  else 0

/-- The overall score as the claim words it: `doraScore` is the unweighted
average of the three mapped ratings (deployment frequency, lead time,
change-failure rate; MTTR excluded), the penalty is the sum of the weights
over the vulnerability list, and the result is `round (doraScore - penalty)`
clamped into [0, 100]. -/
def overallScoreSpec (dora : DORAMetrics)
    (vulnerabilities : List DependencyVulnerability) : ℤ :=
  let doraScore :=
    (ratingToScoreSpec dora.deploymentFrequency.rating +
      ratingToScoreSpec dora.leadTimeForChanges.rating +
      ratingToScoreSpec dora.changeFailureRate.rating) / 3
  let penalty := (vulnerabilities.map penaltyWeightSpec).sum
  min 100 (max 0 (round (doraScore - penalty)))

theorem ratingScores_eq_spec (r : Rating) :
    Suggestions.ratingScores r = ratingToScoreSpec r := by
  cases r <;> rfl

theorem vulnPenalty_eq_spec (vulnerabilities : List DependencyVulnerability) :
    Suggestions.vulnPenalty vulnerabilities =
      (vulnerabilities.map penaltyWeightSpec).sum := by
  suffices h : ∀ a : ℚ,
      vulnerabilities.foldl
        (fun sum v =>
          if v.severity = "critical" then sum + 5
          else if v.severity = "high" then sum + 2
          else if v.severity = "medium" then sum + 1
          else sum)
        a = a + (vulnerabilities.map penaltyWeightSpec).sum by
    simpa [Suggestions.vulnPenalty] using h 0
  induction vulnerabilities with
  | nil => intro a; simp
  | cons v rest ih =>
    intro a
    simp only [List.foldl_cons, List.map_cons, List.sum_cons, ih]
    unfold penaltyWeightSpec
    split_ifs <;> ring

/-- A `DORAMetrics` fixture with all composite ratings Elite. -/
def allEliteMetrics : DORAMetrics :=
  ⟨⟨10, .Elite, .deployments_api⟩, ⟨2, .Elite⟩, ⟨1, 0, 20, .Elite⟩, ⟨none, .NA⟩⟩

/-- A `DORAMetrics` fixture with all composite ratings Low. -/
def allLowMetrics : DORAMetrics :=
  ⟨⟨0, .Low, .merged_prs_fallback⟩, ⟨900, .Low⟩, ⟨50, 10, 20, .Low⟩, ⟨none, .NA⟩⟩

/-- C1: for every DORAMetrics value and vulnerability list,
`computeOverallScore` equals the claim's formula (round of the unweighted
three-rating average minus the additive severity penalty, clamped to
[0, 100] with N/A mapped to the neutral 50); in particular all-Elite ratings
with no vulnerabilities score 100 and all-Low ratings with no
vulnerabilities score 25. -/
theorem computeOverallScore_spec :
    (∀ (dora : DORAMetrics) (vulnerabilities : List DependencyVulnerability),
      Suggestions.computeOverallScore dora vulnerabilities =
        overallScoreSpec dora vulnerabilities) ∧
    Suggestions.computeOverallScore allEliteMetrics [] = 100 ∧
    Suggestions.computeOverallScore allLowMetrics [] = 25 := by
  refine ⟨?_, ?_, ?_⟩
  · intro dora vulnerabilities
    unfold Suggestions.computeOverallScore overallScoreSpec
    rw [vulnPenalty_eq_spec, ratingScores_eq_spec, ratingScores_eq_spec,
      ratingScores_eq_spec]
    dsimp only
    omega
  · simp only [allEliteMetrics, Suggestions.computeOverallScore,
      Suggestions.ratingScores, Suggestions.vulnPenalty, List.foldl_nil]
    norm_num [round_eq]
  · simp only [allLowMetrics, Suggestions.computeOverallScore,
      Suggestions.ratingScores, Suggestions.vulnPenalty, List.foldl_nil]
    norm_num [round_eq]

/-! ## Run and metrics fixtures for the concrete evaluations -/

/-- A queued/in-progress CI run (not completed). -/
def runInProgress : GitHubWorkflowRun := ⟨some "in_progress", none, 0, some "main"⟩

/-- A completed successful CI run on `main` at time `t`. -/
def runSuccess (t : ℤ) : GitHubWorkflowRun :=
  ⟨some "completed", some "success", t, some "main"⟩

/-- A completed failed CI run on `main` at time `t`. -/
def runFailure (t : ℤ) : GitHubWorkflowRun :=
  ⟨some "completed", some "failure", t, some "main"⟩

/-! ## Claim C2: change-failure rate on zero completed runs -/

/-- C2 (divergence): the CLI analyzer's `computeCFR` behaves as the claim
says — zero runs and all-in-progress runs give `{0, 0, 0, N/A}`, and only
completed runs enter the percentage (1 failure among 2 completed runs out of
3 total is 50%, rated Low) — but the metrics-engine copy
`computeChangeFailureRate` returns the rating `Elite` on both zero-completed
branches, contradicting the repository's own test
"returns N/A when no runs exist". -/
theorem computeCFR_zero_completed :
    Analyzer.computeCFR [] = ⟨0, 0, 0, .NA⟩ ∧
    Analyzer.computeCFR [runInProgress] = ⟨0, 0, 0, .NA⟩ ∧
    Analyzer.computeCFR [runFailure 0, runSuccess 1, runInProgress] =
      ⟨50, 1, 2, .Low⟩ ∧
    Metrics.computeChangeFailureRate [] = ⟨0, 0, 0, .Elite⟩ ∧
    Metrics.computeChangeFailureRate [runInProgress] = ⟨0, 0, 0, .Elite⟩ := by
  refine ⟨by rfl, ?_, ?_, by rfl, ?_⟩
  · simp [Analyzer.computeCFR, runInProgress, List.filter_cons]
  · simp [Analyzer.computeCFR, runFailure, runSuccess, runInProgress,
      List.filter_cons, toFixed1, Metrics.rateChangeFailureRate]
    norm_num [round_eq]
  · simp [Metrics.computeChangeFailureRate, runInProgress, List.filter_cons]

/-! ## Claim C3: lead time on zero merged PRs -/

/-- C3 (divergence): the CLI analyzer's `computeLeadTime` returns
`{0, N/A}` on an empty merged-PR list as the claim says, but the
metrics-engine copy rates the empty list `median [] = 0` as `Elite`,
contradicting the repository's own test
"returns N/A rating when no merged PRs exist". -/
theorem computeLeadTime_zero_prs :
    Analyzer.computeLeadTime [] = ⟨0, .NA⟩ ∧
    Metrics.computeLeadTime [] = ⟨0, .Elite⟩ := by
  constructor
  · rfl
  · simp only [Metrics.computeLeadTime, List.filter, List.map_nil, median,
      List.length_nil, if_pos rfl, toFixed1, Metrics.rateLeadTime]
    norm_num [round_eq]

/-! ## Claim C4: the meanTimeToRestore field is never computed -/

/-- C4 (divergence): `computeDORAMetrics` returns the constant
`{medianHours: null, rating: N/A}` for `meanTimeToRestore`, for every input
whatsoever — it never calls `computeMTTR` — while the walk `computeMTTR`
itself, on a failure at t=0 followed 2 hours later by a success on the same
branch, yields the claimed `{2, High}` (which is also what the repository's
own test "computes MTTR when a failure is followed by a success on the same
branch" asserts of the engine). -/
theorem meanTimeToRestore_not_wired :
    (∀ (off : ℤ) (deployments : List GitHubDeployment)
        (mergedPRs : List GitHubPullRequest) (runs : List GitHubWorkflowRun),
      (Metrics.computeDORAMetrics off deployments mergedPRs runs).meanTimeToRestore =
        ⟨none, .NA⟩) ∧
    Metrics.computeMTTR [runFailure 0, runSuccess 7200000] =
      ⟨some 2, .High⟩ := by
  constructor
  · intro off deployments mergedPRs runs
    rfl
  · have hrt : Metrics.restorationTimes [runFailure 0, runSuccess 7200000] =
        [2] := by decide
    have hmed : median [(2 : ℚ)] = 2 := by
      norm_num [median, sortJS, insertStable]
    simp only [Metrics.computeMTTR, hrt, List.map_cons, List.map_nil]
    norm_num [hmed, toFixed1, Metrics.rateMTTR, round_eq]

/-! ## Claim C5: which `fixed` event the two extractions return -/

/-- An OSV affected entry for `lodash`/npm with two ranges, each containing a
`fixed` event: `1.0.0` in the first range, `2.0.0` in the second. -/
def affectedTwoRanges : List Osv.OsvAffected :=
  [⟨"lodash", "npm",
    some [⟨"SEMVER", [⟨some "0", none⟩, ⟨none, some "1.0.0"⟩]⟩,
          ⟨"SEMVER", [⟨none, some "2.0.0"⟩]⟩]⟩]

/-- C5 (divergence): on a matching entry whose ranges declare fixed events
`1.0.0` then `2.0.0`, the shared helper `extractFixedVersion` returns the
first fixed event in declaration order (`1.0.0`) as the claim says, but the
inline loop of `scanVulnerabilities` (whose `break` leaves only the inner
loop) returns the last range's value `2.0.0`. -/
theorem fixedVersion_divergence :
    Osv.extractFixedVersion (some affectedTwoRanges) "lodash" "npm" =
      some "1.0.0" ∧
    VulnScan.scanFixedVersion (some affectedTwoRanges) "lodash" "npm" =
      some "2.0.0" ∧
    VulnScan.scanFixedVersion (some affectedTwoRanges) "lodash" "npm" ≠
      Osv.extractFixedVersion (some affectedTwoRanges) "lodash" "npm" := by
  refine ⟨by decide, by decide, by decide⟩

/-! ## Claim C6: the sentiment multiplier is not clamped -/

/-- The degraded-metrics fixture of the risk-engine tests
(`makeDoraMetrics(200, 30)`). -/
def doraDegraded : DORAMetrics :=
  ⟨⟨10, .Elite, .merged_prs_fallback⟩, ⟨200, .Elite⟩, ⟨30, 30, 100, .Elite⟩,
    ⟨none, .NA⟩⟩

/-- C6 (divergence): with the out-of-range sentiment ratio 2.5 the source
computes the multiplier `1 + 2.5 x 0.5 = 2.25`, not the claimed clamped
value 1.5 (which the repository's own test "clamps sentimentNegativeRatio to
[0, 1]" asserts); an absent ratio does give exactly 1.0. -/
theorem sentimentMultiplier_not_clamped :
    (Risk.computeRiskScore doraDegraded (some ((5 : ℚ) / 2))).sentimentMultiplier =
      (9 : ℚ) / 4 ∧
    ((9 : ℚ) / 4 ≠ (3 : ℚ) / 2) ∧
    (Risk.computeRiskScore doraDegraded none).sentimentMultiplier = 1 := by
  refine ⟨?_, by norm_num, ?_⟩
  · simp only [Risk.computeRiskScore, toFixed2]
    norm_num [round_eq]
  · simp only [Risk.computeRiskScore, toFixed2]
    norm_num [round_eq]

/-! ## Claim C7: the deployment-frequency suggestion rules -/

/-- A `DORAMetrics` fixture whose deployment-frequency rating is `N/A` and
whose other fields trigger no rule. -/
def doraFreqNA : DORAMetrics :=
  ⟨⟨5, .NA, .deployments_api⟩, ⟨12, .Elite⟩, ⟨3, 1, 30, .Elite⟩, ⟨none, .NA⟩⟩

/-- C7 counterexample: on a deployment-frequency rating of `N/A` the
suggestion engine emits no "Low Deployment Frequency" suggestion at all (the
rule tests `rating === "Low"` only); the sole output here is the
zero-vulnerability reinforcement suggestion. -/
theorem lowFrequency_not_fired_on_NA :
    doraFreqNA.deploymentFrequency.rating = .NA ∧
    Suggestions.generateSuggestions doraFreqNA [] =
      [⟨.security, .low, "No Known Vulnerabilities"⟩] := by
  constructor
  · rfl
  · norm_num [Suggestions.generateSuggestions, doraFreqNA, sortJS,
      insertStable, List.filter_nil, List.foldl_cons, List.foldl_nil]

/-- A `DORAMetrics` fixture with rating `Low` and fallback source. -/
def doraLowFallback : DORAMetrics :=
  ⟨⟨0, .Low, .merged_prs_fallback⟩, ⟨12, .Elite⟩, ⟨3, 1, 30, .Elite⟩,
    ⟨none, .NA⟩⟩

/-- C7 (amended): whenever the deployment-frequency rating is `Low` the
engine emits the medium-severity "Low Deployment Frequency" suggestion, and
independently, whenever the deployment source is the merged-PR fallback it
emits the low-severity "No Formal Deployment Tracking" suggestion; both may
fire on the same input. -/
theorem generateSuggestions_deployment_rules :
    ∀ (dora : DORAMetrics) (vulns : List DependencyVulnerability),
      (dora.deploymentFrequency.rating = .Low →
        (⟨.performance, .medium, "Low Deployment Frequency"⟩ :
            Suggestions.Suggestion) ∈ Suggestions.generateSuggestions dora vulns) ∧
      (dora.deploymentFrequency.source = .merged_prs_fallback →
        (⟨.performance, .low, "No Formal Deployment Tracking"⟩ :
            Suggestions.Suggestion) ∈ Suggestions.generateSuggestions dora vulns) := by
  intro dora vulns
  constructor
  · intro h
    unfold Suggestions.generateSuggestions
    rw [mem_sortJS]
    simp [h, List.mem_append]
  · intro h
    unfold Suggestions.generateSuggestions
    rw [mem_sortJS]
    simp [h, List.mem_append]

/-- Witness for C7's amended claim: both deployment rules fire together on a
Low-rated fallback-sourced input. -/
theorem generateSuggestions_deployment_rules_witness :
    (⟨.performance, .medium, "Low Deployment Frequency"⟩ :
        Suggestions.Suggestion) ∈
      Suggestions.generateSuggestions doraLowFallback [] ∧
    (⟨.performance, .low, "No Formal Deployment Tracking"⟩ :
        Suggestions.Suggestion) ∈
      Suggestions.generateSuggestions doraLowFallback [] :=
  ⟨(generateSuggestions_deployment_rules doraLowFallback []).1 rfl,
    (generateSuggestions_deployment_rules doraLowFallback []).2 rfl⟩

end DeliveryIntel
